import Mathlib

/-!
Verification of the fb_messenger controllers
(`app/controllers/conversation_controller.py`,
`app/controllers/message_controller.py`) against their natural-language
specification.

The Cassandra store is embedded shallowly: each table is a list of rows in
store-returned order, each `session.execute` call of the controllers becomes
one `Stmt` recorded in an execution trace, and `applyStmt` gives the effect of
a statement on the store (SELECT statements leave it unchanged, INSERT
statements update the corresponding table).  Identifiers and timestamps are
natural numbers; `page` and `limit` are integers because the Python code never
validates them and `(page - 1) * limit` can go negative.  Python list slicing
`xs[start:stop]` is modelled by `pySlice`, including its clamping rules for
negative and out-of-range indices.  The nondeterministic `uuid4()` and
`datetime.utcnow()` of `send_message` are passed in as explicit arguments.
-/

namespace Messenger

/-- Row of the `conversations_by_user` table:
`(user_id, conversation_id, participant_id, last_updated)`. -/
structure ConversationByUserRow where
  user_id : Nat
  conversation_id : Nat
  participant_id : Nat
  last_updated : Nat
deriving DecidableEq, Repr

/-- Row of the `conversation_participants` table:
`(conversation_id, participant_id)`. -/
structure ConversationParticipantRow where
  conversation_id : Nat
  participant_id : Nat
deriving DecidableEq, Repr

/-- Row of the `messages_by_conversation` table:
`(conversation_id, message_id, sender_id, content, timestamp)`. -/
structure MessageRow where
  conversation_id : Nat
  message_id : Nat
  sender_id : Nat
  content : String
  timestamp : Nat
deriving DecidableEq, Repr

/-- The wide-column store: the three tables used by the serving path, each a
list of rows in store-returned order. -/
structure Store where
  conversations_by_user : List ConversationByUserRow
  conversation_participants : List ConversationParticipantRow
  messages_by_conversation : List MessageRow
deriving DecidableEq, Repr

/-- The store with all three tables empty. -/
def emptyStore : Store := ⟨[], [], []⟩

/-- One CQL statement issued through the session, as recorded in an
execution trace.  The `limit` of the two message SELECTs is an integer
because the Python code passes `offset + limit` unvalidated. -/
inductive Stmt where
  | selectConversationsByUser (user_id : Nat)
  | selectParticipants (conversation_id : Nat)
  | selectMessages (conversation_id : Nat) (lim : Int)
  | selectMessagesBefore (conversation_id : Nat) (before_timestamp : Nat) (lim : Int)
  | insertMessage (row : MessageRow)
  | insertParticipant (conversation_id : Nat) (participant_id : Nat)
  | insertConversationByUser (row : ConversationByUserRow)
deriving DecidableEq, Repr

/-- True for the SELECT statements, false for the INSERT statements. -/
def Stmt.isSelect : Stmt → Bool
  | .selectConversationsByUser _ => true
  | .selectParticipants _ => true
  | .selectMessages _ _ => true
  | .selectMessagesBefore _ _ _ => true
  | .insertMessage _ => false
  | .insertParticipant _ _ => false
  | .insertConversationByUser _ => false

/-- Rows returned by
`SELECT conversation_id, participant_id, last_updated FROM conversations_by_user
WHERE user_id = %s` (unbounded scan of the partition). -/
def selectConversationsByUserRows (s : Store) (user_id : Nat) :
    List ConversationByUserRow :=
  s.conversations_by_user.filter (fun row => row.user_id == user_id)

/-- Rows returned by
`SELECT participant_id FROM conversation_participants WHERE conversation_id = %s`. -/
def selectParticipantRows (s : Store) (conversation_id : Nat) :
    List ConversationParticipantRow :=
  s.conversation_participants.filter (fun row => row.conversation_id == conversation_id)

/-- Rows returned by
`SELECT ... FROM messages_by_conversation WHERE conversation_id = %s LIMIT %s`.
A non-positive `lim` yields no rows. -/
def selectMessageRows (s : Store) (conversation_id : Nat) (lim : Int) :
    List MessageRow :=
  ((s.messages_by_conversation.filter (fun row => row.conversation_id == conversation_id)).take
    lim.toNat)

/-- Rows returned by
`SELECT ... FROM messages_by_conversation
WHERE conversation_id = %s AND timestamp < %s LIMIT %s`. -/
def selectMessageRowsBefore (s : Store) (conversation_id : Nat)
    (before_timestamp : Nat) (lim : Int) : List MessageRow :=
  ((s.messages_by_conversation.filter
      (fun row => row.conversation_id == conversation_id && row.timestamp < before_timestamp)).take
    lim.toNat)

/-- Modelled from the spec: the CQL schema (CREATE TABLE statements with the
primary keys) is not part of the controller sources.  Per the spec the message
row field `message_id` is a freshly generated unique identifier per send and the
table is append-only, so an INSERT adds a new row. -/
def insertMessageRow (s : Store) (row : MessageRow) : Store :=
  { s with messages_by_conversation := s.messages_by_conversation ++ [row] }

/-- Modelled from the spec: the schema is not in the sources; the spec has one
`conversation_participants` row per participant per conversation and calls the
write an idempotent upsert, so the whole row is the key and inserting an
existing row is a no-op. -/
def insertParticipantRow (s : Store) (conversation_id participant_id : Nat) : Store :=
  let row : ConversationParticipantRow := ⟨conversation_id, participant_id⟩
  if s.conversation_participants.contains row then s
  else { s with conversation_participants := s.conversation_participants ++ [row] }

/-- Modelled from the spec: the schema is not in the sources; the spec has one
`conversations_by_user` row per `(user_id, conversation_id)` pair whose
`last_updated` is overwritten (not merged) on every new message, so the INSERT
is an upsert keyed by `(user_id, conversation_id)`: any existing row with that
key is replaced by the new row. -/
def insertConversationByUserRow (s : Store) (row : ConversationByUserRow) : Store :=
  { s with conversations_by_user :=
      (s.conversations_by_user.filter
        (fun x => !(x.user_id == row.user_id && x.conversation_id == row.conversation_id)))
      ++ [row] }

/-- Effect of one statement on the store: SELECTs leave it unchanged,
INSERTs update the corresponding table. -/
def applyStmt (s : Store) : Stmt → Store
  | .selectConversationsByUser _ => s
  | .selectParticipants _ => s
  | .selectMessages _ _ => s
  | .selectMessagesBefore _ _ _ => s
  | .insertMessage row => insertMessageRow s row
  | .insertParticipant cid pid => insertParticipantRow s cid pid
  | .insertConversationByUser row => insertConversationByUserRow s row

/-- Effect of a whole execution trace on the store. -/
def applyTrace (s : Store) (stmts : List Stmt) : Store :=
  stmts.foldl applyStmt s

/-- Python list slicing `xs[start:stop]` (step 1): a negative index counts
from the end of the list, and both indices are clamped to `[0, len(xs)]`
before the elements in `[start, stop)` are taken. -/
def pySlice {α : Type} (xs : List α) (start stop : Int) : List α :=
  let n : Int := xs.length
  let a : Int := if start < 0 then max (n + start) 0 else min start n
  let b : Int := if stop < 0 then max (n + stop) 0 else min stop n
  (xs.drop a.toNat).take (b - a).toNat

/-- Model of `fastapi.HTTPException(status_code, detail)`. -/
structure HTTPError where
  status_code : Nat
  detail : String
deriving DecidableEq, Repr

/-- Starlette renders `str(HTTPException(code, detail))` as `"code: detail"`,
which is what `str(e)` produces when an `HTTPException` is caught by the
blanket `except Exception` handler. -/
def HTTPError.str (e : HTTPError) : String :=
  toString e.status_code ++ ": " ++ e.detail

/-- Schema `ConversationResponse`: `get_conversation` fills `last_updated`
with `None`, the paginated listing fills it from the table row. -/
structure ConversationResponse where
  conversation_id : Nat
  participant_id : Nat
  last_updated : Option Nat
deriving DecidableEq, Repr

/-- Schema `PaginatedConversationResponse`. -/
structure PaginatedConversationResponse where
  conversations : List ConversationResponse
  page : Int
  limit : Int
  has_more : Bool
deriving DecidableEq, Repr

/-- Schema `MessageCreate`: body of the send-message request. -/
structure MessageCreate where
  conversation_id : Nat
  sender_id : Nat
  receiver_id : Nat
  content : String
deriving DecidableEq, Repr

/-- Schema `MessageResponse`. -/
structure MessageResponse where
  message_id : Nat
  conversation_id : Nat
  sender_id : Nat
  content : String
  timestamp : Nat
deriving DecidableEq, Repr

/-- Schema `PaginatedMessageResponse`. -/
structure PaginatedMessageResponse where
  messages : List MessageResponse
  page : Int
  limit : Int
  has_more : Bool
deriving DecidableEq, Repr

/-- The `ConversationResponse` built from one `conversations_by_user` row by
the paginated listing. -/
def convRowResponse (row : ConversationByUserRow) : ConversationResponse :=
  { conversation_id := row.conversation_id
    participant_id := row.participant_id
    last_updated := some row.last_updated }

/-- The `MessageResponse` built from one `messages_by_conversation` row by the
two paginated message reads (`conversation_id` comes from the request, not the
row). -/
def msgRowResponse (conversation_id : Nat) (row : MessageRow) : MessageResponse :=
  { message_id := row.message_id
    conversation_id := conversation_id
    sender_id := row.sender_id
    content := row.content
    timestamp := row.timestamp }

/-- Embedding of `ConversationController.get_user_conversations(user_id, page, limit)`:
unbounded scan of `conversations_by_user` for `user_id`, then the in-memory
slice `list(results)[offset : offset + limit]` with `offset = (page-1)*limit`,
returned together with `has_more = (len(conversations) == limit)`.  The result
is paired with the trace of statements issued through the session.  The
`except Exception` branch wrapping the body is unreachable here because the
modelled SELECT is total. -/
def get_user_conversations (s : Store) (user_id : Nat) (page limit : Int) :
    Except HTTPError PaginatedConversationResponse × List Stmt :=
  let offset : Int := (page - 1) * limit
  let results := selectConversationsByUserRows s user_id
  let conversations := pySlice results offset (offset + limit)
  (Except.ok
    { conversations := conversations.map convRowResponse
      page := page
      limit := limit
      has_more := (conversations.length : Int) == limit },
   [Stmt.selectConversationsByUser user_id])

/-- Embedding of `ConversationController.get_conversation(conversation_id)`: reads the
participant rows; inside the `try` block an empty list raises
`HTTPException(404, "Conversation not found")`, otherwise the first
participant is returned with `last_updated = None`.  The trailing
`except Exception as e: raise HTTPException(500, str(e))` catches every
exception raised in the body — including the 404 `HTTPException`, which is a
subclass of `Exception` — and re-raises it as a 500 carrying `str(e)`. -/
def get_conversation (s : Store) (conversation_id : Nat) :
    Except HTTPError ConversationResponse × List Stmt :=
  let result := selectParticipantRows s conversation_id
  let participants := result.map (fun row => row.participant_id)
  let tryBody : Except HTTPError ConversationResponse :=
    match participants with
    | [] => Except.error ⟨404, "Conversation not found"⟩
    | p :: _ =>
      Except.ok { conversation_id := conversation_id, participant_id := p,
                  last_updated := none }
  let final : Except HTTPError ConversationResponse :=
    match tryBody with
    | Except.ok r => Except.ok r
    | Except.error e => Except.error ⟨500, e.str⟩
  (final, [Stmt.selectParticipants conversation_id])

/-- Embedding of `MessageController.send_message(message_data)`: generates a message id and
a write-time timestamp (passed here as the arguments `message_id` and
`timestamp`, resolving the nondeterminism of `uuid4()` and
`datetime.utcnow()`), inserts the message row, upserts both participants into
`conversation_participants`, and upserts both directions of the
`conversations_by_user` view — for each `user_id` in `[sender_id,
receiver_id]` the stored `participant_id` is `receiver_id if user_id ==
sender_id else sender_id` and `last_updated` is the new timestamp.  Returns
the locally constructed `MessageResponse` and the trace of the five INSERTs;
no SELECT is issued. -/
def send_message (message_data : MessageCreate) (message_id timestamp : Nat) :
    MessageResponse × List Stmt :=
  let conversation_id := message_data.conversation_id
  let cbuRowFor (user_id : Nat) : ConversationByUserRow :=
    { user_id := user_id
      conversation_id := conversation_id
      participant_id :=
        if user_id == message_data.sender_id then message_data.receiver_id
        else message_data.sender_id
      last_updated := timestamp }
  ({ message_id := message_id
     conversation_id := conversation_id
     sender_id := message_data.sender_id
     content := message_data.content
     timestamp := timestamp },
   [Stmt.insertMessage
      { conversation_id := conversation_id
        message_id := message_id
        sender_id := message_data.sender_id
        content := message_data.content
        timestamp := timestamp },
    Stmt.insertParticipant conversation_id message_data.sender_id,
    Stmt.insertParticipant conversation_id message_data.receiver_id,
    Stmt.insertConversationByUser (cbuRowFor message_data.sender_id),
    Stmt.insertConversationByUser (cbuRowFor message_data.receiver_id)])

/-- Embedding of `MessageController.get_conversation_messages(conversation_id, page,
limit)`: fetches at most `offset + limit` rows from the store (`LIMIT %s`),
then slices `list(results)[offset : offset + limit]` in memory, with
`has_more = (len(messages) == limit)`.  The `except Exception` branch is
unreachable here because the modelled SELECT is total. -/
def get_conversation_messages (s : Store) (conversation_id : Nat)
    (page limit : Int) :
    Except HTTPError PaginatedMessageResponse × List Stmt :=
  let offset : Int := (page - 1) * limit
  let results := selectMessageRows s conversation_id (offset + limit)
  let messages := pySlice results offset (offset + limit)
  (Except.ok
    { messages := messages.map (msgRowResponse conversation_id)
      page := page
      limit := limit
      has_more := (messages.length : Int) == limit },
   [Stmt.selectMessages conversation_id (offset + limit)])

/-- Embedding of `MessageController.get_messages_before_timestamp(conversation_id,
before_timestamp, page, limit)`: same as `get_conversation_messages` with the
upper-bound predicate `timestamp < %s` pushed to the store. -/
def get_messages_before_timestamp (s : Store) (conversation_id : Nat)
    (before_timestamp : Nat) (page limit : Int) :
    Except HTTPError PaginatedMessageResponse × List Stmt :=
  let offset : Int := (page - 1) * limit
  let results := selectMessageRowsBefore s conversation_id before_timestamp (offset + limit)
  let messages := pySlice results offset (offset + limit)
  (Except.ok
    { messages := messages.map (msgRowResponse conversation_id)
      page := page
      limit := limit
      has_more := (messages.length : Int) == limit },
   [Stmt.selectMessagesBefore conversation_id before_timestamp (offset + limit)])

/-- Conversations carried by a successful paginated conversation response
(empty on an error, which the modelled operation never produces). -/
def convItems (r : Except HTTPError PaginatedConversationResponse) :
    List ConversationResponse :=
  match r with
  | Except.ok p => p.conversations
  | Except.error _ => []

/-- The `has_more` flag of a successful paginated conversation response. -/
def convHasMore (r : Except HTTPError PaginatedConversationResponse) : Bool :=
  match r with
  | Except.ok p => p.has_more
  | Except.error _ => false

/-- Messages carried by a successful paginated message response. -/
def msgItems (r : Except HTTPError PaginatedMessageResponse) :
    List MessageResponse :=
  match r with
  | Except.ok p => p.messages
  | Except.error _ => []

/-- The `has_more` flag of a successful paginated message response. -/
def msgHasMore (r : Except HTTPError PaginatedMessageResponse) : Bool :=
  match r with
  | Except.ok p => p.has_more
  | Except.error _ => false

/-- True when the response is a success, false when it is an `HTTPException`. -/
def isOk {α : Type} (r : Except HTTPError α) : Bool :=
  match r with
  | Except.ok _ => true
  | Except.error _ => false

/-- The unbounded-scan-then-slice strategy of §4.1, stated in the spec's
words for the message table: read ALL rows of the conversation (no store-side
LIMIT, exactly as `get_user_conversations` reads its partition), then take the
slice `[(page-1)*limit, (page-1)*limit + limit)` in memory. -/
def unboundedScanMessagesPage (s : Store) (conversation_id : Nat)
    (page limit : Int) : List MessageRow :=
  let offset : Int := (page - 1) * limit
  pySlice (s.messages_by_conversation.filter
    (fun row => row.conversation_id == conversation_id)) offset (offset + limit)

/-- With non-negative `start` and a window of non-negative length `l`,
Python slicing is drop-then-take. -/
theorem pySlice_nonneg {α : Type} (xs : List α) (o l : Int) (ho : 0 ≤ o)
    (hl : 0 ≤ l) : pySlice xs o (o + l) = (xs.drop o.toNat).take l.toNat := by
  have hno : ¬ o < 0 := by omega
  have hnol : ¬ o + l < 0 := by omega
  simp only [pySlice]
  rw [if_neg hno, if_neg hnol]
  by_cases h : o ≤ (xs.length : Int)
  · rw [min_eq_left h]
    by_cases h2 : o + l ≤ (xs.length : Int)
    · rw [min_eq_left h2]
      congr 1
      omega
    · rw [min_eq_right (by omega)]
      have hlen : (xs.drop o.toNat).length = xs.length - o.toNat :=
        List.length_drop o.toNat xs
      rw [List.take_of_length_le (by omega), List.take_of_length_le (by omega)]
  · rw [min_eq_right (show (xs.length : Int) ≤ o + l by omega),
        min_eq_right (show (xs.length : Int) ≤ o by omega)]
    have h1 : (xs.drop ((xs.length : Int)).toNat) = [] :=
      List.drop_eq_nil_of_le (by omega)
    have h2 : (xs.drop o.toNat) = [] := List.drop_eq_nil_of_le (by omega)
    rw [h1, h2]
    simp

/-- A Python slice only contains elements of the sliced list. -/
theorem mem_pySlice {α : Type} {a : α} {xs : List α} {start stop : Int}
    (h : a ∈ pySlice xs start stop) : a ∈ xs := by
  simp only [pySlice] at h
  exact List.mem_of_mem_drop (List.mem_of_mem_take h)

/-- Slicing `[o, o+l)` after fetching only the first `o + l` elements gives
the same window as slicing the full sequence. -/
theorem take_window {α : Type} (xs : List α) (o l : Nat) :
    ((xs.take (o + l)).drop o).take l = (xs.drop o).take l := by
  rw [← List.take_drop o l xs, List.take_take, min_self]

/-- Inserting a message row does not touch the `conversations_by_user` table. -/
theorem insertMessageRow_cbu (s : Store) (row : MessageRow) :
    (insertMessageRow s row).conversations_by_user = s.conversations_by_user := rfl

/-- Inserting a participant row does not touch the `conversations_by_user`
table. -/
theorem insertParticipantRow_cbu (s : Store) (c p : Nat) :
    (insertParticipantRow s c p).conversations_by_user = s.conversations_by_user := by
  simp only [insertParticipantRow]
  split <;> rfl

/-- The `conversations_by_user` table after an upsert: the old row with the
same `(user_id, conversation_id)` key (if any) is dropped and the new row is
appended. -/
theorem insertConversationByUserRow_cbu (s : Store) (row : ConversationByUserRow) :
    (insertConversationByUserRow s row).conversations_by_user =
      (s.conversations_by_user.filter
        (fun x => !(x.user_id == row.user_id && x.conversation_id == row.conversation_id)))
      ++ [row] := rfl

/-- C1 (code bug): on a conversation whose participant lookup returns zero
rows — here `conversation_id = 0` on the empty store — `get_conversation`
does NOT fail with the 404 NotFound signal.  The `HTTPException(404,
"Conversation not found")` raised inside the `try` block is itself an
`Exception`, so the trailing `except Exception` handler catches it and
re-raises the generic internal-error signal: a 500 whose detail is the
stringified 404. -/
theorem get_conversation_empty_returns_500_not_404 :
    (get_conversation emptyStore 0).1 =
      Except.error ⟨500, "404: Conversation not found"⟩ ∧
    (get_conversation emptyStore 0).1 ≠
      Except.error ⟨404, "Conversation not found"⟩ := by
  refine ⟨rfl, ?_⟩
  have h : (get_conversation emptyStore 0).1 =
      Except.error ⟨500, "404: Conversation not found"⟩ := rfl
  rw [h]
  simp

/-- C7: a successful `send_message` returns a message object built entirely
from locally computed values: the freshly generated `message_id`, the
write-time `timestamp`, and `conversation_id`, `sender_id` and `content`
echoed from the input.  The embedding of `send_message` takes no store at all
and its trace contains no SELECT, so the response provably never re-reads the
store. -/
theorem send_message_response_locally_computed (message_data : MessageCreate)
    (message_id timestamp : Nat) :
    (send_message message_data message_id timestamp).1 =
      { message_id := message_id
        conversation_id := message_data.conversation_id
        sender_id := message_data.sender_id
        content := message_data.content
        timestamp := timestamp } ∧
    ((send_message message_data message_id timestamp).2.all
      (fun q => ! q.isSelect)) = true :=
  ⟨rfl, rfl⟩

/-- C8: when the participant lookup returns a non-empty sequence,
`get_conversation` succeeds with the requested `conversation_id`, the FIRST
participant in store-returned order, and a null `last_updated`. -/
theorem get_conversation_first_participant (s : Store) (conversation_id p : Nat)
    (rest : List Nat)
    (h : (selectParticipantRows s conversation_id).map
        (fun row => row.participant_id) = p :: rest) :
    (get_conversation s conversation_id).1 =
      Except.ok { conversation_id := conversation_id, participant_id := p,
                  last_updated := none } := by
  simp only [get_conversation, h]

/-- Witness for C8 at a concrete store whose conversation 5 has the
participants `[2, 3]` in store order. -/
theorem get_conversation_first_participant_witness :
    (selectParticipantRows ⟨[], [⟨5, 2⟩, ⟨5, 3⟩], []⟩ 5).map
        (fun row => row.participant_id) = 2 :: [3] ∧
    (get_conversation ⟨[], [⟨5, 2⟩, ⟨5, 3⟩], []⟩ 5).1 =
      Except.ok { conversation_id := 5, participant_id := 2,
                  last_updated := none } :=
  ⟨by decide,
   get_conversation_first_participant ⟨[], [⟨5, 2⟩, ⟨5, 3⟩], []⟩ 5 2 [3] (by decide)⟩

/-- C10: every read operation issues only SELECT statements and leaves the
store state completely unchanged, whether it succeeds or fails; the writes
all sit in the trace of `send_message`. -/
theorem reads_leave_store_unchanged (s : Store)
    (user_id conversation_id before_timestamp : Nat) (page limit : Int) :
    ((get_user_conversations s user_id page limit).2.all Stmt.isSelect = true ∧
      applyTrace s (get_user_conversations s user_id page limit).2 = s) ∧
    ((get_conversation s conversation_id).2.all Stmt.isSelect = true ∧
      applyTrace s (get_conversation s conversation_id).2 = s) ∧
    ((get_conversation_messages s conversation_id page limit).2.all
        Stmt.isSelect = true ∧
      applyTrace s (get_conversation_messages s conversation_id page limit).2 = s) ∧
    ((get_messages_before_timestamp s conversation_id before_timestamp
        page limit).2.all Stmt.isSelect = true ∧
      applyTrace s (get_messages_before_timestamp s conversation_id
        before_timestamp page limit).2 = s) :=
  ⟨⟨rfl, rfl⟩, ⟨rfl, rfl⟩, ⟨rfl, rfl⟩, ⟨rfl, rfl⟩⟩

/-- C3: for all three paginated reads, `has_more` is true exactly when the
number of returned items equals `limit` — the heuristic of the code, which is
a false positive whenever the remaining count equals `limit` exactly. -/
theorem has_more_iff_count_eq_limit (s : Store)
    (user_id conversation_id before_timestamp : Nat) (page limit : Int)
    (_hl : 1 ≤ limit) :
    (convHasMore (get_user_conversations s user_id page limit).1 = true ↔
      ((convItems (get_user_conversations s user_id page limit).1).length : Int)
        = limit) ∧
    (msgHasMore (get_conversation_messages s conversation_id page limit).1 = true ↔
      ((msgItems (get_conversation_messages s conversation_id page limit).1).length : Int)
        = limit) ∧
    (msgHasMore (get_messages_before_timestamp s conversation_id
        before_timestamp page limit).1 = true ↔
      ((msgItems (get_messages_before_timestamp s conversation_id
        before_timestamp page limit).1).length : Int) = limit) := by
  refine ⟨?_, ?_, ?_⟩ <;>
    simp [get_user_conversations, get_conversation_messages,
      get_messages_before_timestamp, convHasMore, convItems, msgHasMore, msgItems]

/-- Witness for C3 on a store holding exactly one conversation row for user 1
and one message in conversation 0, at `page = 1`, `limit = 1`: this is the
false-positive case, where all remaining data is returned yet `has_more` is
true on both paginated shapes. -/
theorem has_more_iff_count_eq_limit_witness :
    (1 : Int) ≤ 1 ∧
    ((convHasMore (get_user_conversations ⟨[⟨1, 0, 2, 9⟩], [], [⟨0, 7, 1, "hi", 9⟩]⟩
        1 1 1).1 = true ↔
      ((convItems (get_user_conversations ⟨[⟨1, 0, 2, 9⟩], [], [⟨0, 7, 1, "hi", 9⟩]⟩
        1 1 1).1).length : Int) = 1) ∧
    (msgHasMore (get_conversation_messages ⟨[⟨1, 0, 2, 9⟩], [], [⟨0, 7, 1, "hi", 9⟩]⟩
        0 1 1).1 = true ↔
      ((msgItems (get_conversation_messages ⟨[⟨1, 0, 2, 9⟩], [], [⟨0, 7, 1, "hi", 9⟩]⟩
        0 1 1).1).length : Int) = 1) ∧
    (msgHasMore (get_messages_before_timestamp ⟨[⟨1, 0, 2, 9⟩], [], [⟨0, 7, 1, "hi", 9⟩]⟩
        0 10 1 1).1 = true ↔
      ((msgItems (get_messages_before_timestamp ⟨[⟨1, 0, 2, 9⟩], [], [⟨0, 7, 1, "hi", 9⟩]⟩
        0 10 1 1).1).length : Int) = 1)) :=
  ⟨by decide,
   has_more_iff_count_eq_limit ⟨[⟨1, 0, 2, 9⟩], [], [⟨0, 7, 1, "hi", 9⟩]⟩
     1 0 10 1 1 (by decide)⟩

/-- C9: no validation is performed on the pagination parameters.  For
`page ≤ 0` or `limit ≤ 0` all three paginated reads still succeed (no
rejection, no validation error) and the returned items are exactly the
in-memory Python slice `[offset : offset + limit]` — with
`offset = (page-1)*limit` possibly negative — applied as-is to the sequence
fetched from the store, with the Python negative-index slice semantics. -/
theorem pagination_params_not_validated (s : Store)
    (user_id conversation_id before_timestamp : Nat) (page limit : Int)
    (_h : page ≤ 0 ∨ limit ≤ 0) :
    (isOk (get_user_conversations s user_id page limit).1 = true ∧
      convItems (get_user_conversations s user_id page limit).1 =
        (pySlice (selectConversationsByUserRows s user_id)
          ((page - 1) * limit) ((page - 1) * limit + limit)).map convRowResponse) ∧
    (isOk (get_conversation_messages s conversation_id page limit).1 = true ∧
      msgItems (get_conversation_messages s conversation_id page limit).1 =
        (pySlice (selectMessageRows s conversation_id ((page - 1) * limit + limit))
          ((page - 1) * limit) ((page - 1) * limit + limit)).map
          (msgRowResponse conversation_id)) ∧
    (isOk (get_messages_before_timestamp s conversation_id before_timestamp
        page limit).1 = true ∧
      msgItems (get_messages_before_timestamp s conversation_id before_timestamp
          page limit).1 =
        (pySlice (selectMessageRowsBefore s conversation_id before_timestamp
            ((page - 1) * limit + limit))
          ((page - 1) * limit) ((page - 1) * limit + limit)).map
          (msgRowResponse conversation_id)) :=
  ⟨⟨rfl, rfl⟩, ⟨rfl, rfl⟩, ⟨rfl, rfl⟩⟩

/-- Witness for C9 at `page = 0`, `limit = 20` (offset `-20`) on a small
concrete store. -/
theorem pagination_params_not_validated_witness :
    ((0 : Int) ≤ 0 ∨ (20 : Int) ≤ 0) ∧
    ((isOk (get_user_conversations ⟨[⟨1, 0, 2, 9⟩], [], [⟨0, 7, 1, "hi", 9⟩]⟩
        1 0 20).1 = true ∧
      convItems (get_user_conversations ⟨[⟨1, 0, 2, 9⟩], [], [⟨0, 7, 1, "hi", 9⟩]⟩
          1 0 20).1 =
        (pySlice (selectConversationsByUserRows
            ⟨[⟨1, 0, 2, 9⟩], [], [⟨0, 7, 1, "hi", 9⟩]⟩ 1)
          ((0 - 1) * 20) ((0 - 1) * 20 + 20)).map convRowResponse) ∧
    (isOk (get_conversation_messages ⟨[⟨1, 0, 2, 9⟩], [], [⟨0, 7, 1, "hi", 9⟩]⟩
        0 0 20).1 = true ∧
      msgItems (get_conversation_messages ⟨[⟨1, 0, 2, 9⟩], [], [⟨0, 7, 1, "hi", 9⟩]⟩
          0 0 20).1 =
        (pySlice (selectMessageRows ⟨[⟨1, 0, 2, 9⟩], [], [⟨0, 7, 1, "hi", 9⟩]⟩
            0 ((0 - 1) * 20 + 20))
          ((0 - 1) * 20) ((0 - 1) * 20 + 20)).map (msgRowResponse 0)) ∧
    (isOk (get_messages_before_timestamp ⟨[⟨1, 0, 2, 9⟩], [], [⟨0, 7, 1, "hi", 9⟩]⟩
        0 10 0 20).1 = true ∧
      msgItems (get_messages_before_timestamp ⟨[⟨1, 0, 2, 9⟩], [], [⟨0, 7, 1, "hi", 9⟩]⟩
          0 10 0 20).1 =
        (pySlice (selectMessageRowsBefore ⟨[⟨1, 0, 2, 9⟩], [], [⟨0, 7, 1, "hi", 9⟩]⟩
            0 10 ((0 - 1) * 20 + 20))
          ((0 - 1) * 20) ((0 - 1) * 20 + 20)).map (msgRowResponse 0))) :=
  ⟨Or.inl le_rfl,
   pagination_params_not_validated ⟨[⟨1, 0, 2, 9⟩], [], [⟨0, 7, 1, "hi", 9⟩]⟩
     1 0 10 0 20 (Or.inl (by decide))⟩

/-- C2: for `page, limit ≥ 1` each paginated read returns exactly the window
`[(page-1)*limit, (page-1)*limit + limit)` of its store result sequence
(drop-then-take form), so the returned count never exceeds `limit`; past the
end the window is simply shorter. -/
theorem paginated_reads_return_slice (s : Store)
    (user_id conversation_id before_timestamp : Nat) (page limit : Int)
    (hp : 1 ≤ page) (hl : 1 ≤ limit) :
    (convItems (get_user_conversations s user_id page limit).1 =
        (((selectConversationsByUserRows s user_id).drop
          ((page - 1) * limit).toNat).take limit.toNat).map convRowResponse ∧
      (convItems (get_user_conversations s user_id page limit).1).length
        ≤ limit.toNat) ∧
    (msgItems (get_conversation_messages s conversation_id page limit).1 =
        (((selectMessageRows s conversation_id
            ((page - 1) * limit + limit)).drop
          ((page - 1) * limit).toNat).take limit.toNat).map
          (msgRowResponse conversation_id) ∧
      (msgItems (get_conversation_messages s conversation_id page limit).1).length
        ≤ limit.toNat) ∧
    (msgItems (get_messages_before_timestamp s conversation_id before_timestamp
          page limit).1 =
        (((selectMessageRowsBefore s conversation_id before_timestamp
            ((page - 1) * limit + limit)).drop
          ((page - 1) * limit).toNat).take limit.toNat).map
          (msgRowResponse conversation_id) ∧
      (msgItems (get_messages_before_timestamp s conversation_id before_timestamp
          page limit).1).length ≤ limit.toNat) := by
  have hoff : (0 : Int) ≤ (page - 1) * limit := mul_nonneg (by omega) (by omega)
  have key : ∀ {α : Type} (xs : List α),
      pySlice xs ((page - 1) * limit) ((page - 1) * limit + limit) =
        (xs.drop ((page - 1) * limit).toNat).take limit.toNat :=
    fun xs => pySlice_nonneg xs _ _ hoff (by omega)
  refine ⟨⟨?_, ?_⟩, ⟨?_, ?_⟩, ⟨?_, ?_⟩⟩ <;>
    simp only [get_user_conversations, get_conversation_messages,
      get_messages_before_timestamp, convItems, msgItems, key,
      List.length_map, List.length_take, min_le_iff, le_refl, true_or]

/-- Witness for C2 at `page = 1`, `limit = 1` on a concrete store with one
conversation row for user 1 and one message in conversation 0. -/
theorem paginated_reads_return_slice_witness :
    ((1 : Int) ≤ 1 ∧ (1 : Int) ≤ 1) ∧
    ((convItems (get_user_conversations ⟨[⟨1, 0, 2, 9⟩], [], [⟨0, 7, 1, "hi", 9⟩]⟩
          1 1 1).1 =
        (((selectConversationsByUserRows
            ⟨[⟨1, 0, 2, 9⟩], [], [⟨0, 7, 1, "hi", 9⟩]⟩ 1).drop
          (((1 : Int) - 1) * 1).toNat).take (1 : Int).toNat).map convRowResponse ∧
      (convItems (get_user_conversations ⟨[⟨1, 0, 2, 9⟩], [], [⟨0, 7, 1, "hi", 9⟩]⟩
          1 1 1).1).length ≤ (1 : Int).toNat) ∧
    (msgItems (get_conversation_messages ⟨[⟨1, 0, 2, 9⟩], [], [⟨0, 7, 1, "hi", 9⟩]⟩
          0 1 1).1 =
        (((selectMessageRows ⟨[⟨1, 0, 2, 9⟩], [], [⟨0, 7, 1, "hi", 9⟩]⟩
            0 (((1 : Int) - 1) * 1 + 1)).drop
          (((1 : Int) - 1) * 1).toNat).take (1 : Int).toNat).map (msgRowResponse 0) ∧
      (msgItems (get_conversation_messages ⟨[⟨1, 0, 2, 9⟩], [], [⟨0, 7, 1, "hi", 9⟩]⟩
          0 1 1).1).length ≤ (1 : Int).toNat) ∧
    (msgItems (get_messages_before_timestamp ⟨[⟨1, 0, 2, 9⟩], [], [⟨0, 7, 1, "hi", 9⟩]⟩
          0 10 1 1).1 =
        (((selectMessageRowsBefore ⟨[⟨1, 0, 2, 9⟩], [], [⟨0, 7, 1, "hi", 9⟩]⟩
            0 10 (((1 : Int) - 1) * 1 + 1)).drop
          (((1 : Int) - 1) * 1).toNat).take (1 : Int).toNat).map (msgRowResponse 0) ∧
      (msgItems (get_messages_before_timestamp ⟨[⟨1, 0, 2, 9⟩], [], [⟨0, 7, 1, "hi", 9⟩]⟩
          0 10 1 1).1).length ≤ (1 : Int).toNat)) :=
  ⟨⟨le_rfl, le_rfl⟩,
   paginated_reads_return_slice ⟨[⟨1, 0, 2, 9⟩], [], [⟨0, 7, 1, "hi", 9⟩]⟩
     1 0 10 1 1 le_rfl le_rfl⟩

/-- C5: for `page, limit ≥ 1`, `get_conversation_messages` — which fetches
only the first `(page-1)*limit + limit` rows from the store and slices in
memory — returns the same page as the unbounded-scan-then-slice strategy of
`get_user_conversations` applied to the full message sequence of the
conversation. -/
theorem windowed_fetch_equals_unbounded_scan (s : Store) (conversation_id : Nat)
    (page limit : Int) (hp : 1 ≤ page) (hl : 1 ≤ limit) :
    msgItems (get_conversation_messages s conversation_id page limit).1 =
      (unboundedScanMessagesPage s conversation_id page limit).map
        (msgRowResponse conversation_id) := by
  have hoff : (0 : Int) ≤ (page - 1) * limit := mul_nonneg (by omega) (by omega)
  simp only [get_conversation_messages, msgItems, unboundedScanMessagesPage]
  rw [pySlice_nonneg _ _ _ hoff (by omega), pySlice_nonneg _ _ _ hoff (by omega)]
  have hsplit : ((page - 1) * limit + limit).toNat =
      ((page - 1) * limit).toNat + limit.toNat := by omega
  simp only [selectMessageRows, hsplit, take_window]

/-- Witness for C5 at `page = 2`, `limit = 1` on a store with three messages
in conversation 0, where the windowed fetch genuinely truncates. -/
theorem windowed_fetch_equals_unbounded_scan_witness :
    ((1 : Int) ≤ 2 ∧ (1 : Int) ≤ 1) ∧
    msgItems (get_conversation_messages
        ⟨[], [], [⟨0, 7, 1, "a", 3⟩, ⟨0, 8, 2, "b", 4⟩, ⟨0, 9, 1, "c", 5⟩]⟩
        0 2 1).1 =
      (unboundedScanMessagesPage
        ⟨[], [], [⟨0, 7, 1, "a", 3⟩, ⟨0, 8, 2, "b", 4⟩, ⟨0, 9, 1, "c", 5⟩]⟩
        0 2 1).map (msgRowResponse 0) :=
  ⟨⟨by decide, le_rfl⟩,
   windowed_fetch_equals_unbounded_scan
     ⟨[], [], [⟨0, 7, 1, "a", 3⟩, ⟨0, 8, 2, "b", 4⟩, ⟨0, 9, 1, "c", 5⟩]⟩
     0 2 1 (by decide) le_rfl⟩

/-- C6: every message returned by `get_messages_before_timestamp` has a
timestamp strictly below `before_timestamp`, for every store, page and limit:
the upper-bound predicate is pushed to the store and slicing only removes
elements. -/
theorem before_timestamp_strict (s : Store)
    (conversation_id before_timestamp : Nat) (page limit : Int)
    (m : MessageResponse)
    (hm : m ∈ msgItems (get_messages_before_timestamp s conversation_id
      before_timestamp page limit).1) :
    m.timestamp < before_timestamp := by
  simp only [get_messages_before_timestamp, msgItems, List.mem_map] at hm
  obtain ⟨row, hrow, rfl⟩ := hm
  have h1 : row ∈ selectMessageRowsBefore s conversation_id before_timestamp
      ((page - 1) * limit + limit) := mem_pySlice hrow
  have h2 : row ∈ s.messages_by_conversation.filter
      (fun row => row.conversation_id == conversation_id &&
        row.timestamp < before_timestamp) :=
    List.mem_of_mem_take h1
  simp only [List.mem_filter, Bool.and_eq_true, beq_iff_eq,
    decide_eq_true_eq] at h2
  exact h2.2.2

/-- Witness for C6: a concrete store with one message at timestamp 3 in
conversation 0, queried with `before_timestamp = 10`. -/
theorem before_timestamp_strict_witness :
    msgRowResponse 0 ⟨0, 7, 1, "hi", 3⟩ ∈
      msgItems (get_messages_before_timestamp ⟨[], [], [⟨0, 7, 1, "hi", 3⟩]⟩
        0 10 1 1).1 ∧
    (msgRowResponse 0 ⟨0, 7, 1, "hi", 3⟩).timestamp < 10 :=
  ⟨by decide,
   before_timestamp_strict ⟨[], [], [⟨0, 7, 1, "hi", 3⟩]⟩ 0 10 1 1
     (msgRowResponse 0 ⟨0, 7, 1, "hi", 3⟩) (by decide)⟩

/-- C4, counterexample to the claim as stated: with `sender_id =
receiver_id = 1` both fan-out inserts hit the same `(user_id,
conversation_id)` primary key, so after `send_message` the store holds ONE
`conversations_by_user` row for the message, not two. -/
theorem send_message_fanout_self_counterexample :
    ((applyTrace emptyStore (send_message ⟨0, 1, 1, "hi"⟩ 7 5).2).conversations_by_user.filter
        (fun row => row.conversation_id == 0 &&
          (row.user_id == 1 || row.user_id == 1))).length = 1 ∧
    ¬ ((applyTrace emptyStore (send_message ⟨0, 1, 1, "hi"⟩ 7 5).2).conversations_by_user.filter
        (fun row => row.conversation_id == 0 &&
          (row.user_id == 1 || row.user_id == 1))).length = 2 := by
  decide

/-- C4, amended with `sender_id ≠ receiver_id`: for distinct participants the
fan-out leaves the store with exactly two `conversations_by_user` rows for the
message — the one keyed by the sender points at the receiver, the one keyed
by the receiver points at the sender, and both carry `last_updated` equal to
the write-time timestamp of the message. -/
theorem send_message_fanout_two_rows (s : Store) (message_data : MessageCreate)
    (message_id timestamp : Nat)
    (hne : message_data.sender_id ≠ message_data.receiver_id) :
    ((applyTrace s (send_message message_data message_id timestamp).2).conversations_by_user.filter
        (fun row => row.conversation_id == message_data.conversation_id &&
          (row.user_id == message_data.sender_id ||
           row.user_id == message_data.receiver_id)))
      = [{ user_id := message_data.sender_id
           conversation_id := message_data.conversation_id
           participant_id := message_data.receiver_id
           last_updated := timestamp },
         { user_id := message_data.receiver_id
           conversation_id := message_data.conversation_id
           participant_id := message_data.sender_id
           last_updated := timestamp }] := by
  obtain ⟨cid, sid, rid, content⟩ := message_data
  simp only [MessageCreate.sender_id, MessageCreate.receiver_id,
    MessageCreate.conversation_id] at hne ⊢
  have hrs : (rid == sid) = false := beq_eq_false_iff_ne.mpr (Ne.symm hne)
  have hsr : (sid == rid) = false := beq_eq_false_iff_ne.mpr hne
  simp only [send_message, applyTrace, List.foldl, applyStmt,
    insertMessageRow_cbu, insertParticipantRow_cbu,
    insertConversationByUserRow_cbu]
  simp [hrs, hsr, List.filter_filter]
  intro a _ h1 h2 h3
  omega

/-- Witness for the amended C4 at `sender_id = 1`, `receiver_id = 2` on the
empty store. -/
theorem send_message_fanout_two_rows_witness :
    ((1 : Nat) ≠ 2) ∧
    ((applyTrace emptyStore (send_message ⟨0, 1, 2, "hi"⟩ 7 5).2).conversations_by_user.filter
        (fun row => row.conversation_id == 0 &&
          (row.user_id == 1 || row.user_id == 2)))
      = [{ user_id := 1, conversation_id := 0, participant_id := 2,
           last_updated := 5 },
         { user_id := 2, conversation_id := 0, participant_id := 1,
           last_updated := 5 }] :=
  ⟨by decide,
   send_message_fanout_two_rows emptyStore ⟨0, 1, 2, "hi"⟩ 7 5 (by decide)⟩

end Messenger
